import Mathlib

/-!
Verification of the keyring-rs core (`src/lib.rs`): the Entry facade, the
default-credential-builder registry, and the reference (mock) credential
store contract.

Conventions of the embedding:
- secrets and passwords are byte sequences (`Bytes := List Nat`); a password
  is identified with its UTF-8 byte encoding;
- the mutable per-credential backend record (in the source, a `MockData`
  behind a mutex inside each mock credential) is threaded explicitly as
  state; Entry methods take the receiver by immutable value, mirroring the
  `&self` receivers in the source;
- the process-global registry (`DEFAULT_BUILDER` plus the `OnceLock DEFAULT`
  inside `build_default_credential`) is threaded as an explicit
  `RegistryState`.
-/

namespace Keyring

/-- Byte sequences: secrets are `Vec<u8>` in the source. -/
abbrev Bytes := List Nat

/-- Modelled from the spec: the portable error taxonomy of section 7
(`error.rs` is not under src/): NoEntry, Ambiguous, BadEncoding carrying the
raw bytes, Invalid, NoStorageAccess, PlatformFailure. -/
inductive KError where
  | NoEntry
  | Ambiguous
  | BadEncoding (bytes : Bytes)
  | Invalid (description : String)
  | NoStorageAccess (cause : String)
  | PlatformFailure (cause : String)
deriving DecidableEq

/-- UTF-8 continuation byte: 0x80..0xBF. -/
def utf8Cont (b : Nat) : Bool :=
  decide (0x80 ≤ b ∧ b ≤ 0xBF)

/-- Modelled from the spec: validity of a byte sequence as UTF-8 (a password
is a secret constrained to valid UTF-8; the decoding helper lives in
`credential.rs`, which is not under src/). Standard RFC 3629 table, with
overlong, surrogate and out-of-range sequences rejected. -/
def utf8Valid : List Nat → Bool
  | [] => true
  | b :: rest =>
    if b ≤ 0x7F then
      utf8Valid rest
    else if b < 0xC2 then
      false
    else if b ≤ 0xDF then
      match rest with
      | c1 :: rest1 => utf8Cont c1 && utf8Valid rest1
      | [] => false
    else if b ≤ 0xEF then
      match rest with
      | c1 :: c2 :: rest2 =>
        utf8Cont c1 && utf8Cont c2
          && (b != 0xE0 || decide (0xA0 ≤ c1))
          && (b != 0xED || decide (c1 ≤ 0x9F))
          && utf8Valid rest2
      | _ => false
    else if b ≤ 0xF4 then
      match rest with
      | c1 :: c2 :: c3 :: rest3 =>
        utf8Cont c1 && utf8Cont c2 && utf8Cont c3
          && (b != 0xF0 || decide (0x90 ≤ c1))
          && (b != 0xF4 || decide (c1 ≤ 0x8F))
          && utf8Valid rest3
      | _ => false
    else false

/-- Modelled from the spec: the per-credential state of the reference (mock)
store of section 4.5 (`mock.rs` is not under src/): an optional stored secret
plus an optional injected next-call error. A fresh credential starts with
both absent. -/
structure MockData where
  secret : Option Bytes
  error : Option KError
deriving DecidableEq

/-- Modelled from the spec: mock `set_secret` — an injected error is returned
and consumed; otherwise the value is stored, overwriting any prior value. -/
def MockData.set_secret : MockData → Bytes → Except KError Unit × MockData
  | ⟨sec, some e⟩, _ => (.error e, ⟨sec, none⟩)
  | ⟨_, none⟩, s => (.ok (), ⟨some s, none⟩)

/-- Modelled from the spec: mock `set_password` stores the password's UTF-8
bytes as the secret. -/
def MockData.set_password (d : MockData) (password : Bytes) : Except KError Unit × MockData :=
  MockData.set_secret d password

/-- Modelled from the spec: mock `get_secret` — injected error first; a
never-written or deleted credential yields `NoEntry`; otherwise the stored
bytes, unchanged. -/
def MockData.get_secret : MockData → Except KError Bytes × MockData
  | ⟨sec, some e⟩ => (.error e, ⟨sec, none⟩)
  | ⟨none, none⟩ => (.error .NoEntry, ⟨none, none⟩)
  | ⟨some s, none⟩ => (.ok s, ⟨some s, none⟩)

/-- Modelled from the spec: mock `get_password` — as `get_secret`, but bytes
that are not valid UTF-8 yield `BadEncoding` carrying exactly those bytes.
The successful result is the password's UTF-8 byte encoding. -/
def MockData.get_password : MockData → Except KError Bytes × MockData
  | ⟨sec, some e⟩ => (.error e, ⟨sec, none⟩)
  | ⟨none, none⟩ => (.error .NoEntry, ⟨none, none⟩)
  | ⟨some s, none⟩ =>
    if utf8Valid s then (.ok s, ⟨some s, none⟩)
    else (.error (.BadEncoding s), ⟨some s, none⟩)

/-- Modelled from the spec: mock `delete_credential` — removes the stored
value if present, `NoEntry` if absent; the credential object survives. -/
def MockData.delete_credential : MockData → Except KError Unit × MockData
  | ⟨sec, some e⟩ => (.error e, ⟨sec, none⟩)
  | ⟨none, none⟩ => (.error .NoEntry, ⟨none, none⟩)
  | ⟨some _, none⟩ => (.ok (), ⟨none, none⟩)

/-- `Entry` from lib.rs: wraps exactly one credential (`inner: Box<Credential>`).
The credential type is a parameter of the embedding. -/
structure Entry (C : Type) where
  inner : C

/-- lib.rs `Entry::new_with_credential`: wraps the caller-supplied credential
directly. Its return type is `Entry C`, not `Except`: it cannot fail. -/
def Entry.new_with_credential {C : Type} (credential : C) : Entry C :=
  ⟨credential⟩

/-- lib.rs `Entry::get_credential` returns `self.inner.as_any()`. The
`as_any` hook is declared in `credential.rs` (not under src/); modelled from
the spec: the self-description hook exposes the wrapped credential object
itself. -/
def Entry.get_credential {C : Type} (e : Entry C) : C :=
  e.inner

/-- lib.rs `Entry::set_password` delegates to the bound credential; for the
mock contract the credential's state is the explicitly threaded `MockData`.
The receiver is immutable (`&self`). -/
def Entry.set_password {C : Type} (_e : Entry C) (st : MockData) (password : Bytes) :
    Except KError Unit × MockData :=
  MockData.set_password st password

/-- lib.rs `Entry::set_secret`, delegating as `set_password` does. -/
def Entry.set_secret {C : Type} (_e : Entry C) (st : MockData) (secret : Bytes) :
    Except KError Unit × MockData :=
  MockData.set_secret st secret

/-- lib.rs `Entry::get_password`, delegating to the bound credential. -/
def Entry.get_password {C : Type} (_e : Entry C) (st : MockData) :
    Except KError Bytes × MockData :=
  MockData.get_password st

/-- lib.rs `Entry::get_secret`, delegating to the bound credential. -/
def Entry.get_secret {C : Type} (_e : Entry C) (st : MockData) :
    Except KError Bytes × MockData :=
  MockData.get_secret st

/-- lib.rs `Entry::delete_credential`, delegating to the bound credential. -/
def Entry.delete_credential {C : Type} (_e : Entry C) (st : MockData) :
    Except KError Unit × MockData :=
  MockData.delete_credential st

/-- An operation on one mock credential's state, used to phrase temporal
claims over call sequences. -/
inductive MOp where
  | getPassword
  | getSecret
  | deleteCredential
  | setPassword (p : Bytes)
  | setSecret (s : Bytes)

/-- Whether an operation writes a value. -/
def MOp.isWrite : MOp → Bool
  | .setPassword _ => true
  | .setSecret _ => true
  | _ => false

/-- The state after one operation (results discarded). -/
def MockData.applyOp (st : MockData) : MOp → MockData
  | .getPassword => (MockData.get_password st).2
  | .getSecret => (MockData.get_secret st).2
  | .deleteCredential => (MockData.delete_credential st).2
  | .setPassword p => (MockData.set_password st p).2
  | .setSecret s => (MockData.set_secret st s).2

/-- The state after a sequence of operations. -/
def MockData.applyOps (st : MockData) (ops : List MOp) : MockData :=
  ops.foldl MockData.applyOp st

/-- A write-free operation sequence keeps an empty, error-free credential
empty and error-free. -/
theorem applyOps_preserves_empty (ops : List MOp) :
    ∀ st : MockData, st.secret = none → st.error = none →
      ops.all (fun o => !o.isWrite) = true →
      (MockData.applyOps st ops).secret = none ∧ (MockData.applyOps st ops).error = none := by
  induction ops with
  | nil =>
    intro st hs he _
    exact ⟨hs, he⟩
  | cons op rest ih =>
    intro st hs he hall
    obtain ⟨sec, err⟩ := st
    simp only [MockData.secret] at hs
    simp only [MockData.error] at he
    subst hs
    subst he
    simp only [List.all_cons, Bool.and_eq_true] at hall
    have hst : MockData.applyOps ⟨none, none⟩ (op :: rest) =
        MockData.applyOps (MockData.applyOp ⟨none, none⟩ op) rest := rfl
    rw [hst]
    cases op with
    | getPassword =>
      exact ih ⟨none, none⟩ rfl rfl hall.2
    | getSecret =>
      exact ih ⟨none, none⟩ rfl rfl hall.2
    | deleteCredential =>
      exact ih ⟨none, none⟩ rfl rfl hall.2
    | setPassword p => simp [MOp.isWrite] at hall
    | setSecret s => simp [MOp.isWrite] at hall

/-- An empty, error-free credential answers `get_password` with `NoEntry`. -/
theorem mock_get_password_empty (st : MockData) (hs : st.secret = none)
    (he : st.error = none) : (MockData.get_password st).1 = .error .NoEntry := by
  obtain ⟨sec, err⟩ := st
  simp only [MockData.secret] at hs
  simp only [MockData.error] at he
  subst hs
  subst he
  rfl

/-- An empty, error-free credential answers `get_secret` with `NoEntry`. -/
theorem mock_get_secret_empty (st : MockData) (hs : st.secret = none)
    (he : st.error = none) : (MockData.get_secret st).1 = .error .NoEntry := by
  obtain ⟨sec, err⟩ := st
  simp only [MockData.secret] at hs
  simp only [MockData.error] at he
  subst hs
  subst he
  rfl

/-- A successful delete leaves the empty, error-free credential state. -/
theorem mock_delete_ok (st : MockData)
    (hdel : (MockData.delete_credential st).1 = .ok ()) :
    (MockData.delete_credential st).2 = ⟨none, none⟩ := by
  obtain ⟨sec, err⟩ := st
  cases err with
  | some e => simp [MockData.delete_credential] at hdel
  | none =>
    cases sec with
    | none => simp [MockData.delete_credential] at hdel
    | some v => rfl

/-- A credential builder maps an identity (optional target, service, user)
to a new credential, as `CredentialBuilderApi::build` in the source; the
credential type is a parameter of the embedding. -/
abbrev CredentialBuilder (C : Type) := Option String → String → String → Except KError C

/-- The process-global registry state of lib.rs: `inner` is the override
slot of the `DEFAULT_BUILDER: RwLock<EntryBuilder>` static, and `DEFAULT` is
the `OnceLock` cache of the platform-default builder inside
`build_default_credential`. Both start empty. -/
structure RegistryState (B : Type) where
  inner : Option B
  DEFAULT : Option B
deriving DecidableEq

/-- lib.rs `set_default_credential_builder`: stores the new builder in the
override slot (`guard.inner = Some(new)`), replacing any previous one. -/
def set_default_credential_builder {B : Type} (s : RegistryState B) (new : B) :
    RegistryState B :=
  { s with inner := some new }

/-- The builder-resolution step of lib.rs `build_default_credential`:
`guard.inner.as_ref().unwrap_or_else(|| DEFAULT.get_or_init(|| default::default_credential_builder()))`.
`pd` is the platform-default thunk; the `Nat` counts how many times this
call evaluated the thunk (0 or 1), instrumenting the at-most-once claim. -/
def resolveBuilder {B : Type} (pd : Unit → B) (s : RegistryState B) :
    B × RegistryState B × Nat :=
  match s.inner with
  | some b => (b, s, 0)
  | none =>
    match s.DEFAULT with
    | some d => (d, s, 0)
    | none => (pd (), { s with DEFAULT := some (pd ()) }, 1)

/-- lib.rs `build_default_credential`: resolve the builder, build a
credential for the identity, wrap it in an Entry. -/
def build_default_credential {C : Type} (pd : Unit → CredentialBuilder C)
    (s : RegistryState (CredentialBuilder C)) (target : Option String)
    (service user : String) :
    Except KError (Entry C) × RegistryState (CredentialBuilder C) :=
  ((resolveBuilder pd s).1 target service user).map (fun cred => ⟨cred⟩)
    |> (fun r => (r, (resolveBuilder pd s).2.1))

/-- lib.rs `Entry::new`: `build_default_credential(None, service, user)`. -/
def Entry.new {C : Type} (pd : Unit → CredentialBuilder C)
    (s : RegistryState (CredentialBuilder C)) (service user : String) :
    Except KError (Entry C) × RegistryState (CredentialBuilder C) :=
  build_default_credential pd s none service user

/-- lib.rs `Entry::new_with_target`: `build_default_credential(Some(target), service, user)`. -/
def Entry.new_with_target {C : Type} (pd : Unit → CredentialBuilder C)
    (s : RegistryState (CredentialBuilder C)) (target service user : String) :
    Except KError (Entry C) × RegistryState (CredentialBuilder C) :=
  build_default_credential pd s (some target) service user

/-- The state-passing reading of a call to `Entry::new_with_credential` in a
program whose global registry state is `s`: the source function mentions
neither `DEFAULT_BUILDER` nor the `OnceLock`, so the translation returns the
state unchanged. -/
def Entry.new_with_credential_st {B C : Type} (s : RegistryState B) (credential : C) :
    Entry C × RegistryState B :=
  (Entry.new_with_credential credential, s)

/-- Modelled from the spec: the mock store's builder (section 4.5,
`mock.rs` is not under src/) accepts any identity without validation and
returns a fresh, empty credential; it never fails. -/
def mockBuild : CredentialBuilder MockData :=
  fun _target _service _user => .ok ⟨none, none⟩

/-- One call against the registry: installing an override, or creating an
entry through the default path (`Entry::new` / `Entry::new_with_target`). -/
inductive RegOp (B : Type) where
  | setDefault (b : B)
  | create

/-- Whether a registry call is an entry creation. -/
def RegOp.isCreate {B : Type} : RegOp B → Bool
  | .create => true
  | .setDefault _ => false

/-- Run a sequence of registry calls; returns the final registry state, the
total number of platform-default constructions, and the list of builders the
creation calls resolved, in order. -/
def regRun {B : Type} (pd : Unit → B) :
    RegistryState B → List (RegOp B) → RegistryState B × Nat × List B
  | s, [] => (s, 0, [])
  | s, .setDefault b :: rest => regRun pd (set_default_credential_builder s b) rest
  | s, .create :: rest =>
    match resolveBuilder pd s with
    | (b, s2, k) =>
      match regRun pd s2 rest with
      | (s3, n, bs) => (s3, k + n, b :: bs)

/-- Resolving never changes the override slot. -/
theorem resolveBuilder_inner {B : Type} (pd : Unit → B) (s : RegistryState B) :
    ((resolveBuilder pd s).2.1).inner = s.inner := by
  obtain ⟨i, d⟩ := s
  cases i with
  | some b => rfl
  | none => cases d with
    | some b => rfl
    | none => rfl

/-- Resolving with the override present returns the override, touches
nothing, and constructs nothing. -/
theorem resolveBuilder_override {B : Type} (pd : Unit → B) (s : RegistryState B)
    (F : B) (h : s.inner = some F) : resolveBuilder pd s = (F, s, 0) := by
  obtain ⟨i, d⟩ := s
  simp only [RegistryState.inner] at h
  subst h
  rfl

/-- Once the platform default is cached, no run of registry calls changes or
rebuilds it. -/
theorem regRun_DEFAULT_mono {B : Type} (pd : Unit → B) (d : B) :
    ∀ (ops : List (RegOp B)) (s : RegistryState B), s.DEFAULT = some d →
      ((regRun pd s ops).1).DEFAULT = some d := by
  intro ops
  induction ops with
  | nil => intro s h; exact h
  | cons op rest ih =>
    intro s h
    cases op with
    | setDefault b =>
      exact ih _ h
    | create =>
      obtain ⟨i, dd⟩ := s
      simp only [RegistryState.DEFAULT] at h
      subst h
      cases i with
      | some b =>
        exact ih ⟨some b, some d⟩ rfl
      | none =>
        exact ih ⟨none, some d⟩ rfl

/-- The number of platform-default constructions in any run is at most one,
and zero once the cache is filled. -/
theorem regRun_count_le {B : Type} (pd : Unit → B) :
    ∀ (ops : List (RegOp B)) (s : RegistryState B),
      (regRun pd s ops).2.1 ≤ (if s.DEFAULT.isSome then 0 else 1) := by
  intro ops
  induction ops with
  | nil =>
    intro s
    have : (regRun pd s []).2.1 = 0 := rfl
    rw [this]
    exact Nat.zero_le _
  | cons op rest ih =>
    intro s
    cases op with
    | setDefault b =>
      have hrun : regRun pd s (.setDefault b :: rest)
          = regRun pd (set_default_credential_builder s b) rest := rfl
      rw [hrun]
      have hD : (set_default_credential_builder s b).DEFAULT = s.DEFAULT := rfl
      have := ih (set_default_credential_builder s b)
      rwa [hD] at this
    | create =>
      obtain ⟨i, dd⟩ := s
      cases i with
      | some b =>
        have hrun : (regRun pd ⟨some b, dd⟩ (.create :: rest)).2.1
            = 0 + (regRun pd ⟨some b, dd⟩ rest).2.1 := rfl
        rw [hrun, Nat.zero_add]
        exact ih ⟨some b, dd⟩
      | none =>
        cases dd with
        | some d =>
          have hrun : (regRun pd ⟨none, some d⟩ (.create :: rest)).2.1
              = 0 + (regRun pd ⟨none, some d⟩ rest).2.1 := rfl
          rw [hrun, Nat.zero_add]
          exact ih ⟨none, some d⟩
        | none =>
          have hrun : (regRun pd ⟨none, none⟩ (.create :: rest)).2.1
              = 1 + (regRun pd ⟨none, (some (pd ()))⟩ rest).2.1 := rfl
          rw [hrun]
          have htail := ih ⟨none, some (pd ())⟩
          simp only [RegistryState.DEFAULT, Option.isSome_some, if_true] at htail
          simp only [RegistryState.DEFAULT, Option.isSome_none, Bool.false_eq_true, if_false]
          omega

/-- With the override installed and only creation calls, every creation
resolves the override, and the override survives the run. -/
theorem regRun_override_all {B : Type} (pd : Unit → B) (F : B) :
    ∀ (ops : List (RegOp B)) (s : RegistryState B), s.inner = some F →
      ops.all RegOp.isCreate = true →
      (∀ b ∈ (regRun pd s ops).2.2, b = F) ∧ ((regRun pd s ops).1).inner = some F := by
  intro ops
  induction ops with
  | nil =>
    intro s h _
    exact ⟨by intro b hb; exact absurd hb (List.not_mem_nil b), h⟩
  | cons op rest ih =>
    intro s h hall
    simp only [List.all_cons, Bool.and_eq_true] at hall
    cases op with
    | setDefault b => simp [RegOp.isCreate] at hall
    | create =>
      have hres : resolveBuilder pd s = (F, s, 0) := resolveBuilder_override pd s F h
      have hrun : regRun pd s (.create :: rest)
          = ((regRun pd s rest).1, 0 + (regRun pd s rest).2.1,
              F :: (regRun pd s rest).2.2) := by
        show (match resolveBuilder pd s with
          | (b, s2, k) =>
            match regRun pd s2 rest with
            | (s3, n, bs) => (s3, k + n, b :: bs)) = _
        rw [hres]
      obtain ⟨ihmem, ihinner⟩ := ih s h hall.2
      constructor
      · intro b hb
        rw [hrun] at hb
        simp only at hb
        rcases List.mem_cons.mp hb with hb | hb
        · exact hb
        · exact ihmem b hb
      · rw [hrun]
        exact ihinner

end Keyring

namespace Keyring

/-- C1: for every identity and every secret value (a UTF-8 password or an
arbitrary byte array), set then get on the same Entry returns exactly that
value: `set_password p` then `get_password` yields `p`, and `set_secret s`
then `get_secret` yields `s`, provided no test-harness error is injected. -/
theorem c1_round_trip {C : Type} (e : Entry C) (st : MockData) (p s : Bytes)
    (hp : utf8Valid p = true) (he : st.error = none) :
    ((Entry.set_password e st p).1 = .ok ()
      ∧ (Entry.get_password e (Entry.set_password e st p).2).1 = .ok p)
    ∧ ((Entry.set_secret e st s).1 = .ok ()
      ∧ (Entry.get_secret e (Entry.set_secret e st s).2).1 = .ok s) := by
  obtain ⟨sec, err⟩ := st
  simp only [MockData.error] at he
  subst he
  simp [Entry.set_password, Entry.set_secret, Entry.get_password, Entry.get_secret,
    MockData.set_password, MockData.set_secret, MockData.get_password, MockData.get_secret, hp]

/-- Witness for C1 at concrete inputs: password bytes of "hi", secret
bytes 0xFF 0x00, fresh mock state. -/
theorem c1_round_trip_witness :
    (utf8Valid [104, 105] = true ∧ (MockData.mk none none).error = none)
    ∧ (((Entry.set_password (Entry.mk ()) ⟨none, none⟩ [104, 105]).1 = .ok ()
        ∧ (Entry.get_password (Entry.mk ())
            (Entry.set_password (Entry.mk ()) ⟨none, none⟩ [104, 105]).2).1 = .ok [104, 105])
      ∧ ((Entry.set_secret (Entry.mk ()) ⟨none, none⟩ [255, 0]).1 = .ok ()
        ∧ (Entry.get_secret (Entry.mk ())
            (Entry.set_secret (Entry.mk ()) ⟨none, none⟩ [255, 0]).2).1 = .ok [255, 0])) :=
  ⟨⟨by decide, rfl⟩,
    c1_round_trip (Entry.mk ()) ⟨none, none⟩ [104, 105] [255, 0] (by decide) rfl⟩

/-- C2: on a never-written credential, and on a credential whose delete
succeeded, any write-free sequence of later calls leaves both `get_password`
and `get_secret` returning `NoEntry` — never an empty or stale value. -/
theorem c2_no_entry (ops : List MOp) (hall : ops.all (fun o => !o.isWrite) = true) :
    ((MockData.get_password (MockData.applyOps ⟨none, none⟩ ops)).1 = .error .NoEntry
      ∧ (MockData.get_secret (MockData.applyOps ⟨none, none⟩ ops)).1 = .error .NoEntry)
    ∧ ∀ st : MockData, (MockData.delete_credential st).1 = .ok () →
        ((MockData.get_password
            (MockData.applyOps (MockData.delete_credential st).2 ops)).1 = .error .NoEntry
          ∧ (MockData.get_secret
              (MockData.applyOps (MockData.delete_credential st).2 ops)).1 = .error .NoEntry) := by
  have key : ∀ st : MockData, st.secret = none → st.error = none →
      (MockData.get_password (MockData.applyOps st ops)).1 = .error .NoEntry
        ∧ (MockData.get_secret (MockData.applyOps st ops)).1 = .error .NoEntry := by
    intro st hs he
    obtain ⟨h1, h2⟩ := applyOps_preserves_empty ops st hs he hall
    exact ⟨mock_get_password_empty _ h1 h2, mock_get_secret_empty _ h1 h2⟩
  refine ⟨key ⟨none, none⟩ rfl rfl, ?_⟩
  intro st hdel
  rw [mock_delete_ok st hdel]
  exact key ⟨none, none⟩ rfl rfl

/-- Witness for C2: ops = one read then a delete, starting credential holds
the byte 1. -/
theorem c2_no_entry_witness :
    ([MOp.getPassword, MOp.deleteCredential].all (fun o => !o.isWrite) = true)
    ∧ (MockData.delete_credential ⟨some [1], none⟩).1 = .ok ()
    ∧ ((MockData.get_password
          (MockData.applyOps (MockData.delete_credential ⟨some [1], none⟩).2
            [MOp.getPassword, MOp.deleteCredential])).1 = .error .NoEntry
        ∧ (MockData.get_secret
            (MockData.applyOps (MockData.delete_credential ⟨some [1], none⟩).2
              [MOp.getPassword, MOp.deleteCredential])).1 = .error .NoEntry) :=
  ⟨by decide, rfl,
    (c2_no_entry [MOp.getPassword, MOp.deleteCredential] (by decide)).2
      ⟨some [1], none⟩ rfl⟩

/-- C5: for every byte array B that is not valid UTF-8, after `set_secret B`
succeeds, `get_password` returns `BadEncoding` carrying exactly B, and
`get_secret` returns B unchanged. -/
theorem c5_bad_encoding {C : Type} (e : Entry C) (st : MockData) (B : Bytes)
    (hB : utf8Valid B = false) (he : st.error = none) :
    (Entry.set_secret e st B).1 = .ok ()
    ∧ (Entry.get_password e (Entry.set_secret e st B).2).1 = .error (.BadEncoding B)
    ∧ (Entry.get_secret e (Entry.set_secret e st B).2).1 = .ok B := by
  obtain ⟨sec, err⟩ := st
  simp only [MockData.error] at he
  subst he
  simp [Entry.set_secret, Entry.get_password, Entry.get_secret,
    MockData.set_secret, MockData.get_password, MockData.get_secret, hB]

/-- Witness for C5 at the spec's example bytes 0xFF 0xFE. -/
theorem c5_bad_encoding_witness :
    (utf8Valid [255, 254] = false ∧ (MockData.mk none none).error = none)
    ∧ ((Entry.set_secret (Entry.mk ()) ⟨none, none⟩ [255, 254]).1 = .ok ()
      ∧ (Entry.get_password (Entry.mk ())
          (Entry.set_secret (Entry.mk ()) ⟨none, none⟩ [255, 254]).2).1
            = .error (.BadEncoding [255, 254])
      ∧ (Entry.get_secret (Entry.mk ())
          (Entry.set_secret (Entry.mk ()) ⟨none, none⟩ [255, 254]).2).1 = .ok [255, 254]) :=
  ⟨⟨by decide, rfl⟩, c5_bad_encoding (Entry.mk ()) ⟨none, none⟩ [255, 254] (by decide) rfl⟩

/-- C6: writing value A then value B to the same Entry leaves only B
retrievable: the second set succeeds and a subsequent get returns B, and
when A and B differ the get result is not A. -/
theorem c6_update {C : Type} (e : Entry C) (st : MockData) (A B : Bytes)
    (he : st.error = none) :
    (Entry.set_secret e (Entry.set_secret e st A).2 B).1 = .ok ()
    ∧ (Entry.get_secret e (Entry.set_secret e (Entry.set_secret e st A).2 B).2).1 = .ok B
    ∧ (A ≠ B →
        (Entry.get_secret e (Entry.set_secret e (Entry.set_secret e st A).2 B).2).1 ≠ .ok A) := by
  obtain ⟨sec, err⟩ := st
  simp only [MockData.error] at he
  subst he
  refine ⟨rfl, rfl, ?_⟩
  intro hAB hcontra
  simp only [Entry.set_secret, Entry.get_secret, MockData.set_secret, MockData.get_secret] at hcontra
  exact hAB (Except.ok.inj hcontra).symm

/-- Witness for C6 with A = bytes 1, B = bytes 2. -/
theorem c6_update_witness :
    ((MockData.mk none none).error = none ∧ [1] ≠ [2])
    ∧ ((Entry.set_secret (Entry.mk ()) (Entry.set_secret (Entry.mk ()) ⟨none, none⟩ [1]).2 [2]).1
        = .ok ()
      ∧ (Entry.get_secret (Entry.mk ())
          (Entry.set_secret (Entry.mk ())
            (Entry.set_secret (Entry.mk ()) ⟨none, none⟩ [1]).2 [2]).2).1 = .ok [2]) :=
  ⟨⟨rfl, by decide⟩,
    ⟨(c6_update (Entry.mk ()) ⟨none, none⟩ [1] [2] rfl).1,
      (c6_update (Entry.mk ()) ⟨none, none⟩ [1] [2] rfl).2.1⟩⟩

/-- C8: a successful `delete_credential` removes only the backend-side
record: the resulting state is the empty record, the Entry's bound
credential is untouched (`get_credential` still yields the same wrapped
credential), and a later get on the very same Entry value is well-defined
and returns `NoEntry`. -/
theorem c8_delete_frame {C : Type} (e : Entry C) (st : MockData) (v : Bytes)
    (hs : st.secret = some v) (he : st.error = none) :
    (Entry.delete_credential e st).1 = .ok ()
    ∧ (Entry.delete_credential e st).2 = ⟨none, none⟩
    ∧ (Entry.get_password e (Entry.delete_credential e st).2).1 = .error .NoEntry
    ∧ (Entry.get_secret e (Entry.delete_credential e st).2).1 = .error .NoEntry
    ∧ Entry.get_credential e = e.inner := by
  obtain ⟨sec, err⟩ := st
  simp only [MockData.secret] at hs
  simp only [MockData.error] at he
  subst hs
  subst he
  exact ⟨rfl, rfl, rfl, rfl, rfl⟩

/-- Witness for C8: a credential storing the byte 7. -/
theorem c8_delete_frame_witness :
    ((MockData.mk (some [7]) none).secret = some [7]
      ∧ (MockData.mk (some [7]) none).error = none)
    ∧ ((Entry.delete_credential (Entry.mk ()) ⟨some [7], none⟩).1 = .ok ()
      ∧ (Entry.delete_credential (Entry.mk ()) ⟨some [7], none⟩).2 = ⟨none, none⟩
      ∧ (Entry.get_password (Entry.mk ())
          (Entry.delete_credential (Entry.mk ()) ⟨some [7], none⟩).2).1 = .error .NoEntry
      ∧ (Entry.get_secret (Entry.mk ())
          (Entry.delete_credential (Entry.mk ()) ⟨some [7], none⟩).2).1 = .error .NoEntry
      ∧ Entry.get_credential (Entry.mk ()) = (Entry.mk () : Entry Unit).inner) :=
  ⟨⟨rfl, rfl⟩, c8_delete_frame (Entry.mk ()) ⟨some [7], none⟩ [7] rfl rfl⟩

/-- C3: after `set_default_credential_builder(F)`, every subsequent
`Entry::new`/`Entry::new_with_target` (until another install) resolves F and
builds its credential through F, never the platform default; the install
puts F in the override slot, and a later install replaces F. -/
theorem c3_override_precedence {B : Type} (pd : Unit → B) (s : RegistryState B) (F : B)
    (ops : List (RegOp B)) (h : ops.all RegOp.isCreate = true) :
    (∀ b ∈ (regRun pd (set_default_credential_builder s F) ops).2.2, b = F)
    ∧ (set_default_credential_builder s F).inner = some F
    ∧ (∀ G, (set_default_credential_builder (set_default_credential_builder s F) G).inner
        = some G)
    ∧ (∀ (C : Type) (pdc : Unit → CredentialBuilder C)
        (sc : RegistryState (CredentialBuilder C)) (Fc : CredentialBuilder C)
        (target : Option String) (service user : String),
        (build_default_credential pdc (set_default_credential_builder sc Fc)
            target service user).1
          = (Fc target service user).map (fun cred => ⟨cred⟩)) := by
  refine ⟨(regRun_override_all pd F ops (set_default_credential_builder s F) rfl h).1,
    rfl, fun G => rfl, ?_⟩
  intro C pdc sc Fc target service user
  have hres := resolveBuilder_override pdc (set_default_credential_builder sc Fc) Fc rfl
  simp [build_default_credential, hres]

/-- Witness for C3: naturals as builders, override 1, two creation calls. -/
theorem c3_override_precedence_witness :
    (([RegOp.create, RegOp.create] : List (RegOp Nat)).all RegOp.isCreate = true)
    ∧ (∀ b ∈ (regRun (fun _ => (0 : Nat))
          (set_default_credential_builder ⟨none, none⟩ 1)
          [RegOp.create, RegOp.create]).2.2, b = 1) :=
  ⟨by decide,
    (c3_override_precedence (fun _ => (0 : Nat)) ⟨none, none⟩ 1
      [RegOp.create, RegOp.create] (by decide)).1⟩

/-- C4: the platform-default builder is constructed at most once: over any
sequence of entry creations and override installs starting from the initial
registry state, the default thunk is evaluated at most once, and once the
cache holds a builder no sequence of calls changes it — even if an override
is installed later. -/
theorem c4_lazy_once {B : Type} (pd : Unit → B) (ops : List (RegOp B)) :
    (regRun pd ⟨none, none⟩ ops).2.1 ≤ 1
    ∧ ∀ (s : RegistryState B) (d : B), s.DEFAULT = some d →
        ((regRun pd s ops).1).DEFAULT = some d := by
  constructor
  · have h := regRun_count_le pd ops ⟨none, none⟩
    simpa using h
  · intro s d h
    exact regRun_DEFAULT_mono pd d ops s h

/-- Witness for C4: create, install, create; and persistence of a cached
default 7. -/
theorem c4_lazy_once_witness :
    ((RegistryState.mk none (some 7) : RegistryState Nat).DEFAULT = some 7)
    ∧ (regRun (fun _ => (0 : Nat)) ⟨none, none⟩
        [RegOp.create, RegOp.setDefault 5, RegOp.create]).2.1 ≤ 1
    ∧ ((regRun (fun _ => (0 : Nat)) ⟨none, some 7⟩
        [RegOp.create, RegOp.setDefault 5, RegOp.create]).1).DEFAULT = some 7 :=
  ⟨rfl,
    (c4_lazy_once (fun _ => (0 : Nat)) [RegOp.create, RegOp.setDefault 5, RegOp.create]).1,
    (c4_lazy_once (fun _ => (0 : Nat)) [RegOp.create, RegOp.setDefault 5, RegOp.create]).2
      ⟨none, some 7⟩ 7 rfl⟩

/-- C7: `Entry::new_with_credential` cannot fail (its return type is
`Entry C`, not `Except`), wraps exactly the supplied credential, and leaves
the default-builder registry state untouched. -/
theorem c7_new_with_credential {B C : Type} (s : RegistryState B) (c : C) :
    (Entry.new_with_credential_st s c).1.inner = c
    ∧ (Entry.new_with_credential_st s c).2 = s
    ∧ (Entry.new_with_credential c).inner = c :=
  ⟨rfl, rfl, rfl⟩

/-- C9: `get_credential` on an entry built by `new_with_credential` exposes
the very credential that was supplied, not a copy or a different object. -/
theorem c9_get_credential_roundtrip {C : Type} (c : C) :
    Entry.get_credential (Entry.new_with_credential c) = c :=
  rfl

/-- C10: `Entry::new` performs no validation of the identity at this layer —
with the mock builder it succeeds for every service and user, including the
empty ones — and the resulting fresh Entry supports the full
set / get / delete / get round-trip. -/
theorem c10_empty_identity (p : Bytes) (hp : utf8Valid p = true) :
    (∀ service user : String,
      (Entry.new (fun _ => mockBuild) ⟨none, none⟩ service user).1
        = .ok (Entry.mk ⟨none, none⟩))
    ∧ (Entry.set_password (Entry.mk (MockData.mk none none)) ⟨none, none⟩ p).1 = .ok ()
    ∧ (Entry.get_password (Entry.mk (MockData.mk none none))
        (Entry.set_password (Entry.mk (MockData.mk none none)) ⟨none, none⟩ p).2).1 = .ok p
    ∧ (Entry.delete_credential (Entry.mk (MockData.mk none none))
        (Entry.set_password (Entry.mk (MockData.mk none none)) ⟨none, none⟩ p).2).1 = .ok ()
    ∧ (Entry.get_password (Entry.mk (MockData.mk none none))
        (Entry.delete_credential (Entry.mk (MockData.mk none none))
          (Entry.set_password (Entry.mk (MockData.mk none none)) ⟨none, none⟩ p).2).2).1
      = .error .NoEntry := by
  refine ⟨fun service user => rfl, rfl, ?_, rfl, rfl⟩
  simp [Entry.get_password, Entry.set_password, MockData.set_password,
    MockData.set_secret, MockData.get_password, hp]

/-- Witness for C10: password bytes of "pw", empty service and user. -/
theorem c10_empty_identity_witness :
    (utf8Valid [112, 119] = true)
    ∧ (Entry.new (fun _ => mockBuild) ⟨none, none⟩ "" "").1 = .ok (Entry.mk ⟨none, none⟩)
    ∧ (Entry.get_password (Entry.mk (MockData.mk none none))
        (Entry.set_password (Entry.mk (MockData.mk none none)) ⟨none, none⟩
          [112, 119]).2).1 = .ok [112, 119] :=
  ⟨by decide, (c10_empty_identity [112, 119] (by decide)).1 "" "",
    (c10_empty_identity [112, 119] (by decide)).2.2.1⟩

end Keyring
